import Mathlib

/-!
Shallow embedding of the evidence-processing and compliance-validation
modules of the medical-affairs policy-drafting system
(`evidence_processor.py` and `validator.py`), together with theorems
settling the specification claims about them.

Text is modelled as Lean `String`/`List Char`; Python floats are
modelled as `Rat`; Python dicts are modelled as association lists or
structures; the wall clock (`datetime.now()`) is passed in explicitly.
-/

/-- Lowercase an ASCII character, modelling Python `str.lower` on the
ASCII range that the keyword lexicons use. -/
def pyLowerChar (c : Char) : Char :=
  if 'A' ≤ c ∧ c ≤ 'Z' then Char.ofNat (c.toNat + 32) else c

/-- Python `str.lower` (ASCII range). -/
def pyLower (s : String) : String := ⟨s.data.map pyLowerChar⟩

/-- Python whitespace characters removed by `str.strip()`. -/
def isPySpace (c : Char) : Bool :=
  c = ' ' || c = '\t' || c = '\n' || c = '\r' || c = Char.ofNat 11 || c = Char.ofNat 12

/-- Python `str.strip()` on a character list. -/
def pyStripList (cs : List Char) : List Char :=
  ((cs.dropWhile isPySpace).reverse.dropWhile isPySpace).reverse

/-- Python `str.strip()`. -/
def pyStrip (s : String) : String := ⟨pyStripList s.data⟩

/-- Containment of one character list in another, modelling Python `in`
on strings. -/
def listContainsSub (needle : List Char) : List Char → Bool
  | [] => needle.isEmpty
  | c :: rest => needle.isPrefixOf (c :: rest) || listContainsSub needle rest

/-- Python `needle in hay` on strings. -/
def strContains (hay needle : String) : Bool := listContainsSub needle.data hay.data

/-- Value of a non-empty digit string, `none` on any non-digit. -/
def digitsVal (cs : List Char) : Option Nat :=
  if cs.isEmpty then none
  else cs.foldl (fun acc c =>
    acc.bind (fun n => if c.isDigit then some (10 * n + (c.toNat - 48)) else none)) (some 0)

/-- Python `int(s)`: strip whitespace, optional sign, digits; `none`
models a raised `ValueError`. -/
def parsePyInt (s : String) : Option Int :=
  match pyStripList s.data with
  | '-' :: rest => (digitsVal rest).map (fun n => -(n : Int))
  | '+' :: rest => (digitsVal rest).map (fun n => (n : Int))
  | cs => (digitsVal cs).map (fun n => (n : Int))

/-- Piece of a string before the first `-`, modelling
`pub_date.split("-")[0]`. -/
def beforeDash (cs : List Char) : List Char := cs.takeWhile (fun c => c ≠ '-')

/-- One bibliographic article record, as consumed by the evidence
processor (`article.get(...)` with the documented defaults). -/
structure ArticleRecord where
  pmid : String := ""
  title : String := ""
  authors : List String := []
  publication_date : String := ""
  journal : String := ""
  keywords : List String := []
  abstract : String := ""

/-- Recency points of `_assess_evidence_quality`: `+2` within 3 years,
`+1` within 5, `+0` when the date is missing, unparsable or older. -/
def recencyScore (current_year : Int) (pub_date : String) : Nat :=
  if pub_date = "" then 0
  else
    match parsePyInt ⟨beforeDash pub_date.data⟩ with
    | none => 0
    | some year =>
      if current_year - year ≤ 3 then 2
      else if current_year - year ≤ 5 then 1
      else 0

/-- The quality rubric `_assess_evidence_quality` of the evidence
processor; `current_year` models `datetime.now().year`. -/
def assess_evidence_quality (current_year : Int) (article : ArticleRecord) : String :=
  let score := recencyScore current_year article.publication_date
    + (if article.abstract.length > 500 then 2
       else if article.abstract.length > 200 then 1 else 0)
    + (if article.keywords.length ≥ 5 then 1 else 0)
    + (if article.authors.length ≥ 5 then 1 else 0)
  if score ≥ 5 then "high" else if score ≥ 3 then "medium" else "low"

/-- The section-marker alternatives of the finding-extraction regex, in
alternation order. -/
def sectionMarkers : List (List Char) :=
  ["BACKGROUND:", "OBJECTIVE:", "METHODS:", "RESULTS:", "CONCLUSION:", "CONCLUSIONS:"].map
    String.data

/-- Case-insensitive marker match at the head of the text
(`re.IGNORECASE`). -/
def ciMatches : List Char → List Char → Bool
  | [], _ => true
  | _ :: _, [] => false
  | m :: ms, c :: cs => (pyLowerChar m = pyLowerChar c) && ciMatches ms cs

/-- Length of the first section marker matching at the head of the
text, if any. -/
def findMarker (cs : List Char) : Option Nat :=
  sectionMarkers.findSome? (fun m => if ciMatches m cs then some m.length else none)

/-- Fuelled worker for the marker split; with fuel at least the text
length the fuel never runs out, since every step consumes at least one
character. -/
def splitSectionsFuel : Nat → List Char → List (List Char)
  | 0, cs => [cs]
  | _ + 1, [] => [[]]
  | fuel + 1, c :: rest =>
    match findMarker (c :: rest) with
    | some k => [] :: splitSectionsFuel fuel (rest.drop (k - 1))
    | none =>
      match splitSectionsFuel fuel rest with
      | [] => [[]]
      | p :: ps => (c :: p) :: ps

/-- `re.split` on the section-marker alternation (leftmost match,
separators dropped). -/
def splitSections (cs : List Char) : List (List Char) := splitSectionsFuel cs.length cs

/-- The sentence-terminator class `[.!?]`. -/
def sentenceSeps : List Char := ['.', '!', '?']

/-- `re.split(r"[.!?]", s)`. -/
def splitSentences : List Char → List (List Char)
  | [] => [[]]
  | c :: rest =>
    match splitSentences rest with
    | [] => [[]]
    | p :: ps => if sentenceSeps.contains c then [] :: p :: ps else (c :: p) :: ps

/-- The fixed finding-indicator lexicon. -/
def findingIndicators : List String :=
  ["showed", "demonstrated", "found", "revealed", "indicated", "suggests",
   "associated with", "resulted in", "significantly", "effective"]

/-- Does the (lowercased) sentence contain a finding-indicator term? -/
def sentenceHasIndicator (sen : List Char) : Bool :=
  findingIndicators.any (fun kw => listContainsSub kw.data (sen.map pyLowerChar))

/-- The finding extractor `_extract_findings_from_abstract`: split on
section markers, keep blocks whose stripped length exceeds 50, split
those into sentences, keep sentences with an indicator term (stripped),
return the first 5. -/
def extract_findings_from_abstract (abstract : String) : List String :=
  if abstract = "" then []
  else
    let sections := splitSections abstract.data
    let findings := sections.flatMap (fun sec =>
      if (pyStripList sec).length > 50 then
        (splitSentences sec).filterMap (fun sen =>
          if sentenceHasIndicator sen then some (⟨pyStripList sen⟩ : String) else none)
      else [])
    findings.take 5

/-- One processed evidence record, as produced by `extract_key_findings`
and consumed by the synthesis and filtering operations. -/
structure ProcessedEvidence where
  pmid : String := ""
  title : String := ""
  evidence_quality : String := ""
  key_findings : List String := []
deriving DecidableEq

/-- Entry of the high-quality evidence base (`pmid`, `title`,
`findings`). -/
structure HighQualityEntry where
  pmid : String
  title : String
  findings : List String
deriving DecidableEq

/-- Entry of the supporting evidence base (`pmid`, `title`). -/
structure SupportingEntry where
  pmid : String
  title : String
deriving DecidableEq

/-- The `evidence_base` mapping of a synthesis. -/
structure EvidenceBase where
  high_quality : List HighQualityEntry
  supporting_evidence : List SupportingEntry
deriving DecidableEq

/-- The synthesis object returned by `synthesize_evidence`. -/
structure EvidenceSynthesis where
  topic : String
  total_articles : Nat
  high_quality_count : Nat
  medium_quality_count : Nat
  low_quality_count : Nat
  key_findings : List String
  evidence_base : EvidenceBase
  summary : String
deriving DecidableEq

/-- The narrative summary `_generate_summary`: joins its parts with a
single space. -/
def generate_summary (processed_evidence : List ProcessedEvidence) : String :=
  if processed_evidence = [] then "No evidence available."
  else
    let base := "Analysis based on " ++ toString processed_evidence.length
      ++ " research articles."
    let high := processed_evidence.filter (fun e => e.evidence_quality = "high")
    if high ≠ [] then
      base ++ " High-quality evidence from " ++ toString high.length
        ++ " studies supports the findings."
    else base

/-- The evidence synthesizer `synthesize_evidence`. -/
def synthesize_evidence (processed_evidence : List ProcessedEvidence) (topic : String) :
    EvidenceSynthesis :=
  let high := processed_evidence.filter (fun e => e.evidence_quality = "high")
  let med := processed_evidence.filter (fun e => e.evidence_quality = "medium")
  let low := processed_evidence.filter (fun e => e.evidence_quality = "low")
  let all_findings := processed_evidence.flatMap (fun e => e.key_findings)
  { topic := topic
    total_articles := processed_evidence.length
    high_quality_count := high.length
    medium_quality_count := med.length
    low_quality_count := low.length
    key_findings := all_findings.take 10
    evidence_base :=
      { high_quality := (high.take 5).map (fun e => ⟨e.pmid, e.title, e.key_findings⟩)
        supporting_evidence := ((med ++ low).take 10).map (fun e => ⟨e.pmid, e.title⟩) }
    summary := generate_summary processed_evidence }

/-- The `quality_order` dict of `filter_by_quality`; `none` models an
absent key, so that `.get(q, d)` becomes `(quality_order q).getD d`. -/
def quality_order (q : String) : Option Nat :=
  if q = "high" then some 3
  else if q = "medium" then some 2
  else if q = "low" then some 1
  else none

/-- The quality filter `filter_by_quality`. -/
def filter_by_quality (processed_evidence : List ProcessedEvidence)
    (min_quality : String) : List ProcessedEvidence :=
  let min_level := (quality_order min_quality).getD 2
  processed_evidence.filter (fun e => (quality_order e.evidence_quality).getD 0 ≥ min_level)

/-- A framework's rule set: required section keys and keyword
phrases. -/
structure FrameworkRules where
  required_sections : List String
  keywords : List String

/-- The static rule table `_load_validation_rules`, in insertion
order. -/
def validation_rules : List (String × FrameworkRules) :=
  [("fda_guidelines",
    ⟨["policy_statement", "rationale", "evidence_base", "references"],
     ["fda approved", "clinical trial", "safety", "efficacy"]⟩),
   ("cms_requirements",
    ⟨["coverage_criteria", "evidence_summary", "implementation"],
     ["medically necessary", "coverage", "reimbursement"]⟩),
   ("hipaa_compliance",
    ⟨["privacy", "security", "patient_consent"],
     ["hipaa", "privacy", "protected health information", "phi", "consent"]⟩),
   ("clinical_standards",
    ⟨["clinical_guidelines", "evidence_base", "monitoring"],
     ["evidence-based", "clinical practice", "patient safety", "quality"]⟩)]

/-- One framework's validation result. -/
structure FrameworkResult where
  framework : String
  status : String
  issues : List String
  warnings : List String
  checks_passed : Nat
  checks_failed : Nat
deriving DecidableEq

/-- Python dict lookup on the components mapping. -/
def dictLookup (d : List (String × String)) (k : String) : Option String :=
  (d.find? (fun p => p.1 = k)).map Prod.snd

/-- Truthiness test of one required-section check:
`not (section not in components or not components[section])`. -/
def sectionSatisfied (components : List (String × String)) (sec : String) : Bool :=
  match dictLookup components sec with
  | none => false
  | some v => v ≠ ""

/-- The issue message recorded for a missing section. -/
def missingSectionMsg (sec framework_name : String) : String :=
  "Missing required section: " ++ sec ++ " for " ++ framework_name

/-- The warning recorded when no framework keyword is found. -/
def noKeywordsMsg (framework_name : String) (keywords : List String) : String :=
  "No " ++ framework_name ++ " keywords found in policy. Consider including: "
    ++ String.intercalate ", " (keywords.take 3)

/-- The per-framework validator `_validate_framework`. -/
def validate_framework (framework_name : String) (rules : FrameworkRules)
    (content : String) (components : List (String × String)) : FrameworkResult :=
  let init : FrameworkResult :=
    { framework := framework_name, status := "pass", issues := [], warnings := [],
      checks_passed := 0, checks_failed := 0 }
  let afterSections : FrameworkResult := rules.required_sections.foldl (fun r sec =>
    if sectionSatisfied components sec then
      { r with checks_passed := r.checks_passed + 1 }
    else
      { r with issues := r.issues ++ [missingSectionMsg sec framework_name],
               checks_failed := r.checks_failed + 1 }) init
  let found_keywords := rules.keywords.filter (fun kw => strContains content kw)
  let afterKeywords : FrameworkResult :=
    if found_keywords ≠ [] then
      { afterSections with checks_passed := afterSections.checks_passed + 1 }
    else
      { afterSections with warnings :=
          afterSections.warnings ++ [noKeywordsMsg framework_name rules.keywords] }
  if afterKeywords.checks_failed > 0 then { afterKeywords with status := "fail" }
  else if afterKeywords.warnings ≠ [] then { afterKeywords with status := "warning" }
  else afterKeywords

/-- The aggregate score `_calculate_compliance_score` over the
framework-result mapping's values. -/
def calculate_compliance_score (framework_results : List FrameworkResult) : Rat :=
  if framework_results = [] then 0
  else
    let total_passed : Nat := framework_results.foldl (fun acc r => acc + r.checks_passed) 0
    let total_checks : Nat := framework_results.foldl
      (fun acc r => acc + (r.checks_passed + r.checks_failed)) 0
    if total_checks = 0 then 0
    else (total_passed : Rat) / (total_checks : Rat)

/-- The status thresholds of `validate_policy` (lines 121 to 126). -/
def overall_status_of (score : Rat) : String :=
  if score ≥ 9/10 then "compliant"
  else if score ≥ 7/10 then "needs_review"
  else "non_compliant"

/-- The recommendation texts, in the order the rules can add them. -/
def recAddressIssues : String := "Address all identified issues to achieve compliance."

def recAddSections : String :=
  "Add all required policy sections as specified by regulatory frameworks."

def recReviewWarnings : String :=
  "Review warnings and consider incorporating suggested improvements."

def recSignificantRevision : String :=
  "Policy requires significant revision to meet compliance standards."

def recStrengthen : String := "Policy meets basic requirements but could be strengthened."

def recMeetsStandards : String :=
  "Policy meets compliance standards. Proceed with review and approval."

/-- The recommendation generator `_generate_recommendations`, as a
function of the fields of the results dict it reads. -/
def generate_recommendations (issues warnings : List String) (score : Rat) :
    List String :=
  let recs : List String := []
  let recs :=
    if issues ≠ [] then
      let recs := recs ++ [recAddressIssues]
      let missing := issues.filter (fun i => strContains i "Missing required section")
      if missing ≠ [] then recs ++ [recAddSections] else recs
    else recs
  let recs := if warnings ≠ [] then recs ++ [recReviewWarnings] else recs
  let recs :=
    if score < 7/10 then recs ++ [recSignificantRevision]
    else if score < 9/10 then recs ++ [recStrengthen]
    else recs
  if recs = [] then [recMeetsStandards] else recs

/-- The recommendation rules of `_generate_recommendations` flattened
into one list: the pieces contributed by the issue rules, the warning
rule and the score rules, in order. -/
def recsBase (issues warnings : List String) (score : Rat) : List String :=
  (if issues ≠ [] then
      [recAddressIssues]
      ++ (if issues.filter (fun i => strContains i "Missing required section") ≠ []
          then [recAddSections] else [])
    else [])
  ++ ((if warnings ≠ [] then [recReviewWarnings] else [])
  ++ (if score < 7/10 then [recSignificantRevision]
      else if score < 9/10 then [recStrengthen] else []))

/-- A policy draft as read by `validate_policy`: its content string and
its components mapping. -/
structure PolicyDraft where
  content : String := ""
  components : List (String × String) := []

/-- The full validation report. -/
structure ValidationReport where
  overall_status : String
  validation_timestamp : String
  framework_results : List (String × FrameworkResult)
  issues : List String
  warnings : List String
  recommendations : List String
  compliance_score : Rat
deriving DecidableEq

/-- The top-level validator `validate_policy`; `now_iso` models
`datetime.now().isoformat()` at call time. -/
def validate_policy (now_iso : String) (policy_draft : PolicyDraft) : ValidationReport :=
  let content := pyLower policy_draft.content
  let components := policy_draft.components
  let frs := validation_rules.map
    (fun p => (p.1, validate_framework p.1 p.2 content components))
  let issues := frs.flatMap (fun p => p.2.issues)
  let warnings := frs.flatMap (fun p => p.2.warnings)
  let score := calculate_compliance_score (frs.map Prod.snd)
  { overall_status := overall_status_of score
    validation_timestamp := now_iso
    framework_results := frs
    issues := issues
    warnings := warnings
    recommendations := generate_recommendations issues warnings score
    compliance_score := score }

/-- Result of the evidence-quality validator. -/
structure EvidenceQualityResult where
  status : String
  issues : List String
  warnings : List String
  evidence_quality_score : Rat
deriving DecidableEq

/-- The warning for a limited evidence base. -/
def limitedEvidenceMsg (total_articles : Nat) : String :=
  "Limited evidence base (" ++ toString total_articles
    ++ " articles). Consider expanding evidence search."

/-- The warning for no high-quality evidence. -/
def noHighQualityMsg : String :=
  "No high-quality evidence found. Policy may lack strong support."

/-- The warning for one or two high-quality articles. -/
def fewHighQualityMsg (high_quality : Nat) : String :=
  "Only " ++ toString high_quality
    ++ " high-quality article(s) found. Consider seeking additional high-quality evidence."

/-- The evidence-quality validator `validate_evidence_quality`, reading
`total_articles` and `high_quality_count` from the synthesis. -/
def validate_evidence_quality (evidence_synthesis : EvidenceSynthesis) :
    EvidenceQualityResult :=
  let total_articles := evidence_synthesis.total_articles
  let high_quality := evidence_synthesis.high_quality_count
  if total_articles = 0 then
    { status := "fail", issues := ["No evidence articles found."], warnings := [],
      evidence_quality_score := 0 }
  else
    let score : Rat := (high_quality : Rat) / (total_articles : Rat)
    let warnings : List String :=
      (if total_articles < 5 then [limitedEvidenceMsg total_articles] else [])
      ++ (if high_quality = 0 then [noHighQualityMsg]
          else if high_quality < 3 then [fewHighQualityMsg high_quality] else [])
    if score < 3/10 ∧ total_articles < 5 then
      { status := "fail", issues := ["Insufficient high-quality evidence to support policy."],
        warnings := warnings, evidence_quality_score := score }
    else if warnings ≠ [] then
      { status := "warning", issues := [], warnings := warnings,
        evidence_quality_score := score }
    else
      { status := "pass", issues := [], warnings := warnings,
        evidence_quality_score := score }

/-! ## Helper lemmas -/

theorem foldl_add_eq_sum {α : Type} (f : α → Nat) (l : List α) (n : Nat) :
    l.foldl (fun acc x => acc + f x) n = n + (l.map f).sum := by
  induction l generalizing n with
  | nil => simp
  | cons a t ih => simp [List.foldl_cons, ih]; omega

/-- Total passed checks across a list of framework results. -/
def totalPassed (frs : List FrameworkResult) : Nat :=
  (frs.map (fun r => r.checks_passed)).sum

/-- Total checks (passed plus failed) across a list of framework
results. -/
def totalChecks (frs : List FrameworkResult) : Nat :=
  (frs.map (fun r => r.checks_passed + r.checks_failed)).sum

theorem compliance_score_eq (frs : List FrameworkResult) :
    calculate_compliance_score frs =
      if totalChecks frs = 0 then 0
      else (totalPassed frs : Rat) / (totalChecks frs : Rat) := by
  rcases eq_or_ne frs [] with h | h
  · subst h; simp [calculate_compliance_score, totalChecks, totalPassed]
  · simp only [calculate_compliance_score, h, if_false]
    rw [foldl_add_eq_sum, foldl_add_eq_sum]
    simp only [Nat.zero_add]
    rfl

/-- Claim C1: the overall compliance score equals total passed checks
over total checks across all frameworks, is 0 when that denominator is
0 (in particular for the empty framework-result mapping), always lies
in `[0,1]`, and no division by zero occurs (the zero-denominator case
is returned before any division). -/
theorem c1_compliance_score (frs : List FrameworkResult) :
    (calculate_compliance_score frs =
      if totalChecks frs = 0 then 0
      else (totalPassed frs : Rat) / (totalChecks frs : Rat))
    ∧ 0 ≤ calculate_compliance_score frs
    ∧ calculate_compliance_score frs ≤ 1
    ∧ calculate_compliance_score [] = 0 := by
  have hle : totalPassed frs ≤ totalChecks frs :=
    List.sum_le_sum (by intro i _; omega)
  have hchar := compliance_score_eq frs
  refine ⟨hchar, ?_, ?_, by simp [calculate_compliance_score]⟩
  · rw [hchar]; split
    · exact le_refl 0
    · exact div_nonneg (by positivity) (by positivity)
  · rw [hchar]; split
    · norm_num
    · rename_i htc
      apply div_le_one_of_le₀
      · exact_mod_cast hle
      · positivity

theorem section_foldl_char (name : String) (components : List (String × String)) :
    ∀ (secs : List String) (r : FrameworkResult),
      secs.foldl (fun r sec =>
        if sectionSatisfied components sec then
          { r with checks_passed := r.checks_passed + 1 }
        else
          { r with issues := r.issues ++ [missingSectionMsg sec name],
                   checks_failed := r.checks_failed + 1 }) r
      = { r with
          checks_passed := r.checks_passed
            + (secs.filter (fun s => sectionSatisfied components s)).length,
          checks_failed := r.checks_failed
            + (secs.filter (fun s => !sectionSatisfied components s)).length,
          issues := r.issues ++ (secs.filter (fun s => !sectionSatisfied components s)).map
            (fun s => missingSectionMsg s name) } := by
  intro secs
  induction secs with
  | nil => intro r; simp
  | cons a t ih =>
    intro r
    by_cases ha : sectionSatisfied components a
    · simp only [List.foldl_cons, ha, if_true, ih, List.filter_cons]
      simp [ha, Nat.add_assoc, Nat.add_comm 1]
    · simp only [List.foldl_cons, ha, if_false, ih, List.filter_cons]
      simp [ha, Nat.add_assoc, Nat.add_comm 1]

/-- Claim C2: a framework result has status `fail` iff some check
failed, else `warning` iff some warning was recorded, else `pass`; a
required-section check passes exactly when the section key is present
with a non-empty value, each failed section check records exactly one
issue naming the section and the framework, and the passed-check count
adds one for the keyword check exactly when some keyword occurs. -/
theorem c2_framework_result (name : String) (rules : FrameworkRules)
    (content : String) (components : List (String × String)) :
    ((validate_framework name rules content components).status = "fail"
        ↔ 0 < (validate_framework name rules content components).checks_failed)
    ∧ ((validate_framework name rules content components).checks_failed = 0 →
        ((validate_framework name rules content components).status = "warning"
          ↔ (validate_framework name rules content components).warnings ≠ []))
    ∧ ((validate_framework name rules content components).checks_failed = 0 →
        (validate_framework name rules content components).warnings = [] →
        (validate_framework name rules content components).status = "pass")
    ∧ (validate_framework name rules content components).checks_failed
        = (rules.required_sections.filter (fun s => !sectionSatisfied components s)).length
    ∧ (validate_framework name rules content components).issues
        = (rules.required_sections.filter (fun s => !sectionSatisfied components s)).map
            (fun s => missingSectionMsg s name)
    ∧ (∀ s : String, sectionSatisfied components s = true
        ↔ ∃ v, dictLookup components s = some v ∧ v ≠ "")
    ∧ (validate_framework name rules content components).checks_passed
        = (rules.required_sections.filter (fun s => sectionSatisfied components s)).length
          + (if rules.keywords.any (fun kw => strContains content kw) then 1 else 0) := by
  have hsec : ∀ s : String, sectionSatisfied components s = true
      ↔ ∃ v, dictLookup components s = some v ∧ v ≠ "" := by
    intro s
    unfold sectionSatisfied
    cases h : dictLookup components s with
    | none => simp
    | some v => simp
  have hany : (rules.keywords.filter (fun kw => strContains content kw) ≠ [])
      ↔ rules.keywords.any (fun kw => strContains content kw) = true := by
    rw [Ne, List.filter_eq_nil_iff, List.any_eq_true]
    simp
  have hvf : validate_framework name rules content components =
      if rules.keywords.filter (fun kw => strContains content kw) ≠ [] then
        (if 0 < (rules.required_sections.filter
            (fun s => !sectionSatisfied components s)).length then
          ⟨name, "fail",
            (rules.required_sections.filter (fun s => !sectionSatisfied components s)).map
              (fun s => missingSectionMsg s name), [],
            (rules.required_sections.filter (fun s => sectionSatisfied components s)).length + 1,
            (rules.required_sections.filter (fun s => !sectionSatisfied components s)).length⟩
         else
          ⟨name, "pass",
            (rules.required_sections.filter (fun s => !sectionSatisfied components s)).map
              (fun s => missingSectionMsg s name), [],
            (rules.required_sections.filter (fun s => sectionSatisfied components s)).length + 1,
            (rules.required_sections.filter (fun s => !sectionSatisfied components s)).length⟩)
      else
        (if 0 < (rules.required_sections.filter
            (fun s => !sectionSatisfied components s)).length then
          ⟨name, "fail",
            (rules.required_sections.filter (fun s => !sectionSatisfied components s)).map
              (fun s => missingSectionMsg s name), [noKeywordsMsg name rules.keywords],
            (rules.required_sections.filter (fun s => sectionSatisfied components s)).length,
            (rules.required_sections.filter (fun s => !sectionSatisfied components s)).length⟩
         else
          ⟨name, "warning",
            (rules.required_sections.filter (fun s => !sectionSatisfied components s)).map
              (fun s => missingSectionMsg s name), [noKeywordsMsg name rules.keywords],
            (rules.required_sections.filter (fun s => sectionSatisfied components s)).length,
            (rules.required_sections.filter (fun s => !sectionSatisfied components s)).length⟩) := by
    simp only [validate_framework, section_foldl_char name components]
    rcases eq_or_ne (rules.keywords.filter (fun kw => strContains content kw)) [] with hkw | hkw <;>
      rcases Nat.eq_zero_or_pos ((rules.required_sections.filter
        (fun s => !sectionSatisfied components s)).length) with hf | hf <;>
      simp [hkw, hf, Nat.pos_iff_ne_zero]
  have hanyF : rules.keywords.filter (fun kw => strContains content kw) = [] →
      rules.keywords.any (fun kw => strContains content kw) = false := by
    intro h
    rw [← Bool.not_eq_true, ← hany]
    simp [h]
  rcases eq_or_ne (rules.keywords.filter (fun kw => strContains content kw)) [] with hkw | hkw <;>
    rcases Nat.eq_zero_or_pos ((rules.required_sections.filter
      (fun s => !sectionSatisfied components s)).length) with hf | hf
  · rw [hvf, if_neg (by simp [hkw]), if_neg (by omega)]
    refine ⟨by simp [hf], by simp, by simp, rfl, rfl, hsec, ?_⟩
    simp [hanyF hkw]
  · rw [hvf, if_neg (by simp [hkw]), if_pos hf]
    refine ⟨by simp [hf], by intro h; exact absurd h (Nat.pos_iff_ne_zero.mp hf),
      by intro h; exact absurd h (Nat.pos_iff_ne_zero.mp hf), rfl, rfl, hsec, ?_⟩
    simp [hanyF hkw]
  · rw [hvf, if_pos hkw, if_neg (by omega)]
    refine ⟨by simp [hf], by simp, by simp, rfl, rfl, hsec, ?_⟩
    simp [hany.mp hkw]
  · rw [hvf, if_pos hkw, if_pos hf]
    refine ⟨by simp [hf], by intro h; exact absurd h (Nat.pos_iff_ne_zero.mp hf),
      by intro h; exact absurd h (Nat.pos_iff_ne_zero.mp hf), rfl, rfl, hsec, ?_⟩
    simp [hany.mp hkw]

/-- Concrete instantiation of `c2_framework_result`: a framework whose
one section is present and non-empty and whose keyword occurs gets
status `pass`. -/
theorem c2_framework_result_witness :
    (validate_framework "f" ⟨["a"], ["k"]⟩ "k" [("a", "x")]).checks_failed = 0
    ∧ (validate_framework "f" ⟨["a"], ["k"]⟩ "k" [("a", "x")]).warnings = []
    ∧ (validate_framework "f" ⟨["a"], ["k"]⟩ "k" [("a", "x")]).status = "pass" :=
  ⟨by decide, by decide,
   (c2_framework_result "f" ⟨["a"], ["k"]⟩ "k" [("a", "x")]).2.2.1 (by decide) (by decide)⟩

/-- Claim C3: a validation run is `compliant` when the score is at
least 0.9, `needs_review` when it is in `[0.7, 0.9)` and
`non_compliant` below 0.7; and framework results totalling 17 passed of
20 checks score 0.85 with status `needs_review`. -/
theorem c3_status_thresholds :
    (∀ (now_iso : String) (draft : PolicyDraft),
      ((9/10 : Rat) ≤ (validate_policy now_iso draft).compliance_score →
        (validate_policy now_iso draft).overall_status = "compliant")
      ∧ ((7/10 : Rat) ≤ (validate_policy now_iso draft).compliance_score →
          (validate_policy now_iso draft).compliance_score < 9/10 →
          (validate_policy now_iso draft).overall_status = "needs_review")
      ∧ ((validate_policy now_iso draft).compliance_score < 7/10 →
          (validate_policy now_iso draft).overall_status = "non_compliant"))
    ∧ totalPassed [⟨"a", "", [], [], 9, 2⟩, ⟨"b", "", [], [], 8, 1⟩] = 17
    ∧ totalChecks [⟨"a", "", [], [], 9, 2⟩, ⟨"b", "", [], [], 8, 1⟩] = 20
    ∧ calculate_compliance_score [⟨"a", "", [], [], 9, 2⟩, ⟨"b", "", [], [], 8, 1⟩]
        = (0.85 : Rat)
    ∧ overall_status_of (calculate_compliance_score
        [⟨"a", "", [], [], 9, 2⟩, ⟨"b", "", [], [], 8, 1⟩]) = "needs_review" := by
  have h17 : totalPassed [⟨"a", "", [], [], 9, 2⟩, ⟨"b", "", [], [], 8, 1⟩] = 17 := by decide
  have h20 : totalChecks [⟨"a", "", [], [], 9, 2⟩, ⟨"b", "", [], [], 8, 1⟩] = 20 := by decide
  have hsc : calculate_compliance_score [⟨"a", "", [], [], 9, 2⟩, ⟨"b", "", [], [], 8, 1⟩]
      = (0.85 : Rat) := by
    rw [compliance_score_eq, if_neg (by decide), h17, h20]
    norm_num
  refine ⟨?_, h17, h20, hsc,
    by rw [hsc, overall_status_of, if_neg (by norm_num), if_pos (by norm_num)]⟩
  intro now_iso draft
  have hs : (validate_policy now_iso draft).overall_status
      = overall_status_of (validate_policy now_iso draft).compliance_score := rfl
  refine ⟨?_, ?_, ?_⟩
  · intro h
    rw [hs, overall_status_of, if_pos h]
  · intro h1 h2
    rw [hs, overall_status_of, if_neg (by exact not_le.mpr h2), if_pos h1]
  · intro h
    rw [hs, overall_status_of,
      if_neg (not_le.mpr (lt_trans h (by norm_num))), if_neg (not_le.mpr h)]

/-- Concrete instantiation of `c3_status_thresholds`: the empty policy
draft scores below 0.7 and is `non_compliant`. -/
theorem c3_status_thresholds_witness :
    (validate_policy "T" { content := "", components := [] }).compliance_score < 7/10
    ∧ (validate_policy "T" { content := "", components := [] }).overall_status
        = "non_compliant" :=
by
  have hsc : (validate_policy "T" { content := "", components := [] }).compliance_score
      = calculate_compliance_score ((validation_rules.map (fun p =>
          (p.1, validate_framework p.1 p.2 (pyLower "") []))).map Prod.snd) := rfl
  have hlt : (validate_policy "T" { content := "", components := [] }).compliance_score
      < 7/10 := by
    rw [hsc, compliance_score_eq, if_neg (by decide),
      show totalPassed ((validation_rules.map (fun p =>
        (p.1, validate_framework p.1 p.2 (pyLower "") []))).map Prod.snd) = 0 from by decide]
    rw [Nat.cast_zero, zero_div]
    norm_num
  exact ⟨hlt, (c3_status_thresholds.1 "T" { content := "", components := [] }).2.2 hlt⟩

theorem tier_of_score (s : Nat) :
    (if s ≥ 5 then "high" else if s ≥ 3 then "medium" else "low") = "high"
    ∨ (if s ≥ 5 then "high" else if s ≥ 3 then "medium" else "low") = "medium"
    ∨ (if s ≥ 5 then "high" else if s ≥ 3 then "medium" else "low") = "low" := by
  split
  · exact Or.inl rfl
  · split
    · exact Or.inr (Or.inl rfl)
    · exact Or.inr (Or.inr rfl)

set_option maxRecDepth 4000 in
/-- Claim C4: the assessed quality tier is always one of high, medium
and low; a record with a 600-character abstract, 5 keywords, 6 authors
and a current-year publication date is high; a record with abstract
"Short", no keywords, one author and a 14-year-old publication date is
low. -/
theorem c4_quality_tier :
    (∀ (current_year : Int) (article : ArticleRecord),
      assess_evidence_quality current_year article = "high"
      ∨ assess_evidence_quality current_year article = "medium"
      ∨ assess_evidence_quality current_year article = "low")
    ∧ assess_evidence_quality 2026
        { abstract := ⟨List.replicate 600 'a'⟩,
          keywords := ["k1", "k2", "k3", "k4", "k5"],
          authors := ["a1", "a2", "a3", "a4", "a5", "a6"],
          publication_date := "2026-01-15" } = "high"
    ∧ assess_evidence_quality 2026
        { abstract := "Short", keywords := [], authors := ["a1"],
          publication_date := "2012-03-01" } = "low" := by
  refine ⟨?_, by decide, by decide⟩
  intro cy a
  exact tier_of_score _

theorem filter_three_length (evs : List ProcessedEvidence)
    (h : ∀ e ∈ evs, e.evidence_quality = "high" ∨ e.evidence_quality = "medium"
      ∨ e.evidence_quality = "low") :
    (evs.filter (fun e => e.evidence_quality = "high")).length
    + (evs.filter (fun e => e.evidence_quality = "medium")).length
    + (evs.filter (fun e => e.evidence_quality = "low")).length = evs.length := by
  induction evs with
  | nil => simp
  | cons a t ih =>
    have ht := ih (fun e he => h e (List.mem_cons_of_mem a he))
    have ha := h a (List.mem_cons_self a t)
    rcases ha with h1 | h1 | h1 <;> simp [List.filter_cons, h1] <;> omega

/-- Claim C5: the per-tier counts of a synthesis sum to the total when
every record carries one of the three tiers; the empty input yields the
summary "No evidence available." with all counts zero; and a
high-plus-medium pair yields total 2 with one high-quality record. -/
theorem c5_synthesis_counts :
    (∀ (evs : List ProcessedEvidence) (topic : String),
      (∀ e ∈ evs, e.evidence_quality = "high" ∨ e.evidence_quality = "medium"
        ∨ e.evidence_quality = "low") →
      (synthesize_evidence evs topic).high_quality_count
        + (synthesize_evidence evs topic).medium_quality_count
        + (synthesize_evidence evs topic).low_quality_count
        = (synthesize_evidence evs topic).total_articles)
    ∧ (∀ topic : String,
        (synthesize_evidence [] topic).summary = "No evidence available."
        ∧ (synthesize_evidence [] topic).total_articles = 0
        ∧ (synthesize_evidence [] topic).high_quality_count = 0
        ∧ (synthesize_evidence [] topic).medium_quality_count = 0
        ∧ (synthesize_evidence [] topic).low_quality_count = 0)
    ∧ (synthesize_evidence
        [{ evidence_quality := "high" }, { evidence_quality := "medium" }]
        "t").total_articles = 2
    ∧ (synthesize_evidence
        [{ evidence_quality := "high" }, { evidence_quality := "medium" }]
        "t").high_quality_count = 1 := by
  refine ⟨?_, ?_, by decide, by decide⟩
  · intro evs topic h
    exact filter_three_length evs h
  · intro topic
    exact ⟨rfl, rfl, rfl, rfl, rfl⟩

/-- Concrete instantiation of `c5_synthesis_counts`: for one high and
one medium record the three counts sum to the total. -/
theorem c5_synthesis_counts_witness :
    (synthesize_evidence
      [{ evidence_quality := "high" }, { evidence_quality := "medium" }] "t").high_quality_count
    + (synthesize_evidence
      [{ evidence_quality := "high" }, { evidence_quality := "medium" }] "t").medium_quality_count
    + (synthesize_evidence
      [{ evidence_quality := "high" }, { evidence_quality := "medium" }] "t").low_quality_count
    = (synthesize_evidence
      [{ evidence_quality := "high" }, { evidence_quality := "medium" }] "t").total_articles :=
  c5_synthesis_counts.1
    [{ evidence_quality := "high" }, { evidence_quality := "medium" }] "t" (by decide)

/-- Claim C6: evidence-quality validation short-circuits on zero
articles with a fail status, the "No evidence articles found." issue
and score 0 (and no warnings); otherwise the score is
high-quality-count over total, warnings are present exactly when the
total is under 5 or the high-quality count is under 3, status is fail
exactly when the score is under 0.3 and the total under 5, and
otherwise the status is warning exactly when warnings exist, else
pass. -/
theorem c6_evidence_quality_validation (es : EvidenceSynthesis) :
    (es.total_articles = 0 →
      (validate_evidence_quality es).status = "fail"
      ∧ (validate_evidence_quality es).issues = ["No evidence articles found."]
      ∧ (validate_evidence_quality es).evidence_quality_score = 0
      ∧ (validate_evidence_quality es).warnings = [])
    ∧ (es.total_articles ≠ 0 →
        (validate_evidence_quality es).evidence_quality_score
          = (es.high_quality_count : Rat) / (es.total_articles : Rat)
        ∧ ((validate_evidence_quality es).warnings ≠ []
            ↔ (es.total_articles < 5 ∨ es.high_quality_count < 3))
        ∧ ((validate_evidence_quality es).status = "fail"
            ↔ ((es.high_quality_count : Rat) / (es.total_articles : Rat) < 3/10
               ∧ es.total_articles < 5))
        ∧ (¬((es.high_quality_count : Rat) / (es.total_articles : Rat) < 3/10
              ∧ es.total_articles < 5) →
            (((validate_evidence_quality es).status = "warning"
               ↔ (validate_evidence_quality es).warnings ≠ [])
             ∧ ((validate_evidence_quality es).status = "pass"
               ↔ (validate_evidence_quality es).warnings = [])))) := by
  by_cases h0 : es.total_articles = 0
  · refine ⟨fun _ => ?_, fun h => absurd h0 h⟩
    simp only [validate_evidence_quality]
    rw [if_pos h0]
    exact ⟨rfl, rfl, rfl, rfl⟩
  · refine ⟨fun h => absurd h h0, fun _ => ?_⟩
    have hW : (validate_evidence_quality es).warnings =
        (if es.total_articles < 5 then [limitedEvidenceMsg es.total_articles] else [])
        ++ (if es.high_quality_count = 0 then [noHighQualityMsg]
            else if es.high_quality_count < 3 then [fewHighQualityMsg es.high_quality_count]
            else []) := by
      simp only [validate_evidence_quality]
      rw [if_neg h0]
      by_cases hc : ((es.high_quality_count : Rat) / (es.total_articles : Rat) < 3/10
          ∧ es.total_articles < 5)
      · rw [if_pos hc]
      · rw [if_neg hc]
        by_cases hw : ((if es.total_articles < 5 then [limitedEvidenceMsg es.total_articles]
              else [])
            ++ (if es.high_quality_count = 0 then [noHighQualityMsg]
                else if es.high_quality_count < 3 then [fewHighQualityMsg es.high_quality_count]
                else []) ≠ ([] : List String))
        · rw [if_pos hw]
        · rw [if_neg hw]
    have hS : (validate_evidence_quality es).evidence_quality_score
        = (es.high_quality_count : Rat) / (es.total_articles : Rat) := by
      simp only [validate_evidence_quality]
      rw [if_neg h0]
      by_cases hc : ((es.high_quality_count : Rat) / (es.total_articles : Rat) < 3/10
          ∧ es.total_articles < 5)
      · rw [if_pos hc]
      · rw [if_neg hc]
        by_cases hw : ((if es.total_articles < 5 then [limitedEvidenceMsg es.total_articles]
              else [])
            ++ (if es.high_quality_count = 0 then [noHighQualityMsg]
                else if es.high_quality_count < 3 then [fewHighQualityMsg es.high_quality_count]
                else []) ≠ ([] : List String))
        · rw [if_pos hw]
        · rw [if_neg hw]
    have hWne : ((validate_evidence_quality es).warnings ≠ []
        ↔ (es.total_articles < 5 ∨ es.high_quality_count < 3)) := by
      rw [hW]
      by_cases h5 : es.total_articles < 5 <;>
        by_cases hq0 : es.high_quality_count = 0 <;>
        by_cases hq3 : es.high_quality_count < 3 <;>
        simp [h5, hq0, hq3]
    have hF : ((validate_evidence_quality es).status = "fail"
        ↔ ((es.high_quality_count : Rat) / (es.total_articles : Rat) < 3/10
           ∧ es.total_articles < 5)) := by
      by_cases hc : ((es.high_quality_count : Rat) / (es.total_articles : Rat) < 3/10
          ∧ es.total_articles < 5)
      · refine ⟨fun _ => hc, fun _ => ?_⟩
        simp only [validate_evidence_quality]
        rw [if_neg h0, if_pos hc]
      · refine ⟨fun hs => ?_, fun h => absurd h hc⟩
        exfalso
        revert hs
        simp only [validate_evidence_quality]
        rw [if_neg h0, if_neg hc]
        by_cases hw : ((if es.total_articles < 5 then [limitedEvidenceMsg es.total_articles]
              else [])
            ++ (if es.high_quality_count = 0 then [noHighQualityMsg]
                else if es.high_quality_count < 3 then [fewHighQualityMsg es.high_quality_count]
                else []) ≠ ([] : List String))
        · rw [if_pos hw]; simp
        · rw [if_neg hw]; simp
    have hP : ¬((es.high_quality_count : Rat) / (es.total_articles : Rat) < 3/10
          ∧ es.total_articles < 5) →
        (((validate_evidence_quality es).status = "warning"
           ↔ (validate_evidence_quality es).warnings ≠ [])
         ∧ ((validate_evidence_quality es).status = "pass"
           ↔ (validate_evidence_quality es).warnings = [])) := by
      intro hc
      have hst : (validate_evidence_quality es).status
          = (if (if es.total_articles < 5 then [limitedEvidenceMsg es.total_articles] else [])
              ++ (if es.high_quality_count = 0 then [noHighQualityMsg]
                  else if es.high_quality_count < 3
                  then [fewHighQualityMsg es.high_quality_count]
                  else []) ≠ ([] : List String) then "warning" else "pass") := by
        simp only [validate_evidence_quality]
        rw [if_neg h0, if_neg hc]
        by_cases hw : ((if es.total_articles < 5 then [limitedEvidenceMsg es.total_articles]
              else [])
            ++ (if es.high_quality_count = 0 then [noHighQualityMsg]
                else if es.high_quality_count < 3 then [fewHighQualityMsg es.high_quality_count]
                else []) ≠ ([] : List String))
        · rw [if_pos hw, if_pos hw]
        · rw [if_neg hw, if_neg hw]
      rw [hst, hW]
      by_cases hw : ((if es.total_articles < 5 then [limitedEvidenceMsg es.total_articles]
            else [])
          ++ (if es.high_quality_count = 0 then [noHighQualityMsg]
              else if es.high_quality_count < 3 then [fewHighQualityMsg es.high_quality_count]
              else []) ≠ ([] : List String))
      · rw [if_pos hw]
        simp [hw]
      · rw [if_neg hw]
        push_neg at hw
        simp [hw]
    exact ⟨hS, hWne, hF, hP⟩

/-- Concrete instantiation of `c6_evidence_quality_validation`,
scenario E: a synthesis with zero articles validates to a fail status
with the "No evidence articles found." issue and score 0. -/
theorem c6_evidence_quality_validation_witness :
    (validate_evidence_quality (synthesize_evidence [] "t")).status = "fail"
    ∧ (validate_evidence_quality (synthesize_evidence [] "t")).issues
        = ["No evidence articles found."]
    ∧ (validate_evidence_quality (synthesize_evidence [] "t")).evidence_quality_score = 0
    ∧ (validate_evidence_quality (synthesize_evidence [] "t")).warnings = [] :=
  (c6_evidence_quality_validation (synthesize_evidence [] "t")).1 (by decide)

set_option maxRecDepth 8000 in
/-- Claim C7 counterexample: the single content block "It showed good
gains in all treated patient groups" has stripped length exactly 50 and
contains the indicator term "showed", yet the extractor returns no
findings for it — a block of exactly 50 characters is discarded, not
mined. -/
theorem c7_counterexample :
    (pyStrip "It showed good gains in all treated patient groups").length = 50
    ∧ sentenceHasIndicator "It showed good gains in all treated patient groups".data = true
    ∧ splitSections "RESULTS:It showed good gains in all treated patient groups".data
        = ["".data, "It showed good gains in all treated patient groups".data]
    ∧ extract_findings_from_abstract
        "RESULTS:It showed good gains in all treated patient groups" = [] :=
  ⟨by decide, by decide, by decide, by decide⟩

set_option maxRecDepth 8000 in
/-- Claim C7 amended: the finding extractor splits on the
case-insensitive section markers, discards content blocks whose
stripped length is at most 50 characters (a block of exactly 50
characters is discarded), keeps within surviving blocks only sentences
containing a finding-indicator term, returns at most 5 findings
preserving source order, and returns the empty list for an empty
abstract; a 55-character block containing "showed" does survive and is
mined. -/
theorem c7_extract_findings_amended :
    (extract_findings_from_abstract "" = [])
    ∧ (∀ abstract : String, (extract_findings_from_abstract abstract).length ≤ 5)
    ∧ (∀ abstract : String, ∀ f ∈ extract_findings_from_abstract abstract,
        ∃ sec ∈ splitSections abstract.data,
          50 < (pyStripList sec).length
          ∧ ∃ sen ∈ splitSentences sec,
              sentenceHasIndicator sen = true ∧ f = (⟨pyStripList sen⟩ : String))
    ∧ (∀ abstract : String,
        (∀ sec ∈ splitSections abstract.data, (pyStripList sec).length ≤ 50) →
        extract_findings_from_abstract abstract = [])
    ∧ extract_findings_from_abstract
        "RESULTS:It showed very good gains in all treated patient groups"
        = ["It showed very good gains in all treated patient groups"] := by
  refine ⟨rfl, ?_, ?_, ?_, by decide⟩
  · intro abstract
    by_cases h : abstract = ""
    · simp [extract_findings_from_abstract, h]
    · simp only [extract_findings_from_abstract, h, if_false]
      rw [List.length_take]
      omega
  · intro abstract f hf
    by_cases h : abstract = ""
    · simp [extract_findings_from_abstract, h] at hf
    · simp only [extract_findings_from_abstract, h, if_false] at hf
      have hf' := List.take_subset 5 _ hf
      rw [List.mem_flatMap] at hf'
      obtain ⟨sec, hsec, hfsec⟩ := hf'
      refine ⟨sec, hsec, ?_⟩
      by_cases h50 : (pyStripList sec).length > 50
      · rw [if_pos h50] at hfsec
        rw [List.mem_filterMap] at hfsec
        obtain ⟨sen, hsen, hsome⟩ := hfsec
        refine ⟨h50, sen, hsen, ?_⟩
        by_cases hind : sentenceHasIndicator sen = true
        · rw [if_pos hind] at hsome
          exact ⟨hind, (Option.some.injEq _ _ ▸ hsome).symm⟩
        · rw [if_neg hind] at hsome
          exact absurd hsome (by simp)
      · rw [if_neg h50] at hfsec
        exact absurd hfsec (List.not_mem_nil f)
  · intro abstract hshort
    by_cases h : abstract = ""
    · simp [extract_findings_from_abstract, h]
    · simp only [extract_findings_from_abstract, h, if_false]
      have hnil : (splitSections abstract.data).flatMap (fun sec =>
          if (pyStripList sec).length > 50 then
            (splitSentences sec).filterMap (fun sen =>
              if sentenceHasIndicator sen then some (⟨pyStripList sen⟩ : String) else none)
          else []) = [] := by
        rw [List.flatMap_eq_nil_iff]
        intro sec hsec
        rw [if_neg (by have := hshort sec hsec; omega)]
      rw [hnil]
      rfl

/-- Concrete instantiation of `c7_extract_findings_amended`: an
abstract whose blocks all strip to at most 50 characters yields no
findings. -/
theorem c7_extract_findings_amended_witness :
    extract_findings_from_abstract "RESULTS: tiny showed." = [] :=
  c7_extract_findings_amended.2.2.2.1 "RESULTS: tiny showed." (by decide)

theorem generate_recommendations_eq (issues warnings : List String) (score : Rat) :
    generate_recommendations issues warnings score =
      if recsBase issues warnings score = [] then [recMeetsStandards]
      else recsBase issues warnings score := by
  by_cases hi : issues = [] <;>
    by_cases hm : issues.filter (fun i => strContains i "Missing required section") = [] <;>
    by_cases hw : warnings = [] <;>
    by_cases h7 : score < (7/10 : Rat) <;>
    by_cases h9 : score < (9/10 : Rat) <;>
    simp [generate_recommendations, recsBase, hi, hm, hw, h7, h9]

theorem issues_part_empty_iff (issues : List String) :
    ((if issues ≠ [] then
        [recAddressIssues]
        ++ (if issues.filter (fun i => strContains i "Missing required section") ≠ []
            then [recAddSections] else [])
      else []) = ([] : List String)) ↔ issues = [] := by
  by_cases hi : issues = [] <;> simp [hi]

theorem warnings_part_empty_iff (warnings : List String) :
    ((if warnings ≠ [] then [recReviewWarnings] else []) = ([] : List String))
    ↔ warnings = [] := by
  by_cases hw : warnings = [] <;> simp [hw]

theorem score_part_empty_iff (score : Rat) :
    ((if score < 7/10 then [recSignificantRevision]
      else if score < 9/10 then [recStrengthen] else []) = ([] : List String))
    ↔ (9/10 : Rat) ≤ score := by
  by_cases h7 : score < (7/10 : Rat)
  · rw [if_pos h7]
    constructor
    · intro h; exact absurd h (by simp)
    · intro h; exact absurd h (not_le.mpr (by linarith))
  · rw [if_neg h7]
    by_cases h9 : score < (9/10 : Rat)
    · rw [if_pos h9]
      constructor
      · intro h; exact absurd h (by simp)
      · intro h; exact absurd h (not_le.mpr h9)
    · rw [if_neg h9]
      simp [not_lt.mp h9]

theorem meets_not_in_recsBase (issues warnings : List String) (score : Rat) :
    recMeetsStandards ∉ recsBase issues warnings score := by
  by_cases hi : issues = [] <;>
    by_cases hm : issues.filter (fun i => strContains i "Missing required section") = [] <;>
    by_cases hw : warnings = [] <;>
    by_cases h7 : score < (7/10 : Rat) <;>
    by_cases h9 : score < (9/10 : Rat) <;>
    simp [recsBase, hi, hm, hw, h7, h9]
  all_goals decide

theorem recsBase_nodup (issues warnings : List String) (score : Rat) :
    (recsBase issues warnings score).Nodup := by
  by_cases hi : issues = [] <;>
    by_cases hm : issues.filter (fun i => strContains i "Missing required section") = [] <;>
    by_cases hw : warnings = [] <;>
    by_cases h7 : score < (7/10 : Rat) <;>
    by_cases h9 : score < (9/10 : Rat) <;>
    simp [recsBase, hi, hm, hw, h7, h9]
  all_goals decide

theorem recsBase_empty_iff (issues warnings : List String) (score : Rat) :
    recsBase issues warnings score = []
    ↔ (issues = [] ∧ warnings = [] ∧ (9/10 : Rat) ≤ score) := by
  rw [recsBase, List.append_eq_nil, List.append_eq_nil,
    issues_part_empty_iff, warnings_part_empty_iff, score_part_empty_iff]

theorem generate_recommendations_ne_nil (issues warnings : List String) (score : Rat) :
    generate_recommendations issues warnings score ≠ [] := by
  rw [generate_recommendations_eq]
  split
  · simp
  · rename_i h; exact h

/-- Claim C8: the recommendations list is never empty; each rule fires
at most once (the list has no duplicates); issues, missing-section
issues, warnings and the score thresholds each contribute their fixed
entry; and the single "meets standards, proceed" entry is present
exactly when no other rule fired, in which case it is the whole
list. -/
theorem c8_recommendations (issues warnings : List String) (score : Rat) :
    (generate_recommendations issues warnings score ≠ [])
    ∧ (recMeetsStandards ∈ generate_recommendations issues warnings score
        ↔ (issues = [] ∧ warnings = [] ∧ (9/10 : Rat) ≤ score))
    ∧ (recMeetsStandards ∈ generate_recommendations issues warnings score →
        generate_recommendations issues warnings score = [recMeetsStandards])
    ∧ (issues ≠ [] → recAddressIssues ∈ generate_recommendations issues warnings score)
    ∧ (issues.filter (fun i => strContains i "Missing required section") ≠ [] →
        recAddSections ∈ generate_recommendations issues warnings score)
    ∧ (warnings ≠ [] → recReviewWarnings ∈ generate_recommendations issues warnings score)
    ∧ (score < 7/10 →
        recSignificantRevision ∈ generate_recommendations issues warnings score)
    ∧ ((7/10 : Rat) ≤ score → score < 9/10 →
        recStrengthen ∈ generate_recommendations issues warnings score)
    ∧ (generate_recommendations issues warnings score).Nodup
    ∧ (∀ (now_iso : String) (draft : PolicyDraft),
        (validate_policy now_iso draft).recommendations ≠ []) := by
  have hmeets := meets_not_in_recsBase issues warnings score
  have hbiff := recsBase_empty_iff issues warnings score
  refine ⟨generate_recommendations_ne_nil issues warnings score, ?_, ?_, ?_, ?_, ?_, ?_, ?_, ?_,
    fun t d => generate_recommendations_ne_nil _ _ _⟩
  · rw [generate_recommendations_eq]
    by_cases hb : recsBase issues warnings score = []
    · rw [if_pos hb]
      exact ⟨fun _ => hbiff.mp hb, fun _ => by simp⟩
    · rw [if_neg hb]
      exact ⟨fun hmem => absurd hmem hmeets, fun hc => absurd (hbiff.mpr hc) hb⟩
  · rw [generate_recommendations_eq]
    by_cases hb : recsBase issues warnings score = []
    · rw [if_pos hb]; intro _; rfl
    · rw [if_neg hb]; intro hmem; exact absurd hmem hmeets
  · intro hi
    have hb : recsBase issues warnings score ≠ [] := fun h => hi (hbiff.mp h).1
    rw [generate_recommendations_eq, if_neg hb]
    simp only [recsBase]
    refine List.mem_append.mpr (Or.inl ?_)
    rw [if_pos hi]
    exact List.mem_append.mpr (Or.inl (by simp))
  · intro hm
    have hi : issues ≠ [] := by
      intro h; rw [h] at hm; simp at hm
    have hb : recsBase issues warnings score ≠ [] := fun h => hi (hbiff.mp h).1
    rw [generate_recommendations_eq, if_neg hb]
    simp only [recsBase]
    refine List.mem_append.mpr (Or.inl ?_)
    rw [if_pos hi]
    refine List.mem_append.mpr (Or.inr ?_)
    rw [if_pos hm]
    simp
  · intro hw
    have hb : recsBase issues warnings score ≠ [] := fun h => hw (hbiff.mp h).2.1
    rw [generate_recommendations_eq, if_neg hb]
    simp only [recsBase]
    refine List.mem_append.mpr (Or.inr (List.mem_append.mpr (Or.inl ?_)))
    rw [if_pos hw]
    simp
  · intro h7
    have hb : recsBase issues warnings score ≠ [] := fun h =>
      absurd (hbiff.mp h).2.2 (not_le.mpr (by linarith))
    rw [generate_recommendations_eq, if_neg hb]
    simp only [recsBase]
    refine List.mem_append.mpr (Or.inr (List.mem_append.mpr (Or.inr ?_)))
    rw [if_pos h7]
    simp
  · intro h1 h2
    have hb : recsBase issues warnings score ≠ [] := fun h =>
      absurd (hbiff.mp h).2.2 (not_le.mpr h2)
    rw [generate_recommendations_eq, if_neg hb]
    simp only [recsBase]
    refine List.mem_append.mpr (Or.inr (List.mem_append.mpr (Or.inr ?_)))
    rw [if_neg (not_lt.mpr h1), if_pos h2]
    simp
  · rw [generate_recommendations_eq]
    by_cases hb : recsBase issues warnings score = []
    · rw [if_pos hb]; simp
    · rw [if_neg hb]; exact recsBase_nodup issues warnings score

/-- Concrete instantiation of `c8_recommendations`: with one
missing-section issue present, the "address all identified issues"
recommendation is produced. -/
theorem c8_recommendations_witness :
    recAddressIssues ∈ generate_recommendations
      ["Missing required section: privacy for hipaa_compliance"] [] 0 :=
  (c8_recommendations
    ["Missing required section: privacy for hipaa_compliance"] [] 0).2.2.2.1 (by decide)

/-- Claim C9 counterexample: two validation runs of the identical draft
with identical framework configuration but different clock readings
produce different reports, because `validation_timestamp` records the
clock; so the reports are not identical in every field. -/
theorem c9_counterexample :
    validate_policy "2024-01-01T00:00:00" { content := "", components := [] }
      ≠ validate_policy "2024-01-01T00:00:01" { content := "", components := [] } := by
  intro h
  have h2 : ("2024-01-01T00:00:00" : String) = "2024-01-01T00:00:01" :=
    congrArg ValidationReport.validation_timestamp h
  exact absurd h2 (by decide)

/-- Claim C9 amended: two calls on the identical draft with identical
framework configuration agree on every field except
`validation_timestamp`, which equals the clock reading of the call; in
particular status, score, framework results, issues, warnings and
recommendations are time-independent. -/
theorem c9_time_independence (t1 t2 : String) (draft : PolicyDraft) :
    (validate_policy t1 draft).overall_status = (validate_policy t2 draft).overall_status
    ∧ (validate_policy t1 draft).compliance_score
        = (validate_policy t2 draft).compliance_score
    ∧ (validate_policy t1 draft).framework_results
        = (validate_policy t2 draft).framework_results
    ∧ (validate_policy t1 draft).issues = (validate_policy t2 draft).issues
    ∧ (validate_policy t1 draft).warnings = (validate_policy t2 draft).warnings
    ∧ (validate_policy t1 draft).recommendations
        = (validate_policy t2 draft).recommendations
    ∧ (validate_policy t1 draft).validation_timestamp = t1 :=
  ⟨rfl, rfl, rfl, rfl, rfl, rfl, rfl⟩

theorem quality_order_getD_pos (s : String) : 1 ≤ (quality_order s).getD 2 := by
  by_cases h1 : s = "high" <;> by_cases h2 : s = "medium" <;> by_cases h3 : s = "low" <;>
    simp [quality_order, h1, h2, h3]

theorem quality_order_none (q : String) (h1 : q ≠ "high") (h2 : q ≠ "medium")
    (h3 : q ≠ "low") : quality_order q = none := by
  simp [quality_order, h1, h2, h3]

/-- Claim C10: quality filtering returns, in input order, exactly the
records whose tier ranks at least the minimum level under high 3,
medium 2, low 1; an unknown minimum quality is treated as medium
(level 2); and a record with an unknown quality tier ranks 0 and is
always excluded, even for minimum "low". -/
theorem c10_filter_by_quality (evs : List ProcessedEvidence) (min_quality : String) :
    (filter_by_quality evs min_quality).Sublist evs
    ∧ (∀ e : ProcessedEvidence, e ∈ filter_by_quality evs min_quality
        ↔ (e ∈ evs
           ∧ (quality_order e.evidence_quality).getD 0
              ≥ (quality_order min_quality).getD 2))
    ∧ (min_quality ≠ "high" → min_quality ≠ "medium" → min_quality ≠ "low" →
        filter_by_quality evs min_quality = filter_by_quality evs "medium")
    ∧ (∀ e ∈ filter_by_quality evs min_quality,
        e.evidence_quality = "high" ∨ e.evidence_quality = "medium"
        ∨ e.evidence_quality = "low")
    ∧ (∀ e ∈ evs, e.evidence_quality ≠ "high" → e.evidence_quality ≠ "medium" →
        e.evidence_quality ≠ "low" → e ∉ filter_by_quality evs "low") := by
  refine ⟨List.filter_sublist _, ?_, ?_, ?_, ?_⟩
  · intro e
    simp [filter_by_quality, List.mem_filter]
  · intro h1 h2 h3
    have hn : quality_order min_quality = none := quality_order_none min_quality h1 h2 h3
    simp [filter_by_quality, hn, show quality_order "medium" = some 2 from rfl]
  · intro e he
    simp only [filter_by_quality, List.mem_filter] at he
    by_contra hcon
    push_neg at hcon
    obtain ⟨n1, n2, n3⟩ := hcon
    rw [quality_order_none e.evidence_quality n1 n2 n3] at he
    have hpos := quality_order_getD_pos min_quality
    have h0 := he.2
    simp at h0
    omega
  · intro e _ n1 n2 n3 hmem
    simp only [filter_by_quality, List.mem_filter] at hmem
    rw [quality_order_none e.evidence_quality n1 n2 n3] at hmem
    have h0 := hmem.2
    simp [quality_order] at h0

/-- Concrete instantiation of `c10_filter_by_quality`: a high-quality
record passes the medium filter. -/
theorem c10_filter_by_quality_witness :
    ({ evidence_quality := "high" } : ProcessedEvidence) ∈
      filter_by_quality
        [{ evidence_quality := "high" }, { evidence_quality := "low" }] "medium" :=
  ((c10_filter_by_quality
    [{ evidence_quality := "high" }, { evidence_quality := "low" }]
    "medium").2.1 { evidence_quality := "high" }).mpr (by decide)
